import Mathlib

/-!
Shallow embedding of the message-driven worker template
(producer / consumer / user repository), translated from the Go source:
  - pkg/workers (ConsumerWorker, ProducerWorker, WorkerMessage, UserPayload)
  - pkg/repositories/user_repository.go (CreateUser)
JSON bodies are modelled at tree level: a delivery body is `Option Json`,
where `none` stands for bytes that do not parse as JSON; field decoding
follows encoding/json semantics for this struct (absent or null field of
string type keeps the zero value, wrong type is an error, an `interface`
payload accepts any JSON value, the last occurrence of a duplicated key
wins, as when decoding into a Go map).
-/

namespace Worker

/-- A JSON document tree (the image of Go `interface` values produced by
`json.Unmarshal`: null, bool, number, string, array, object). -/
inductive Json where
  | null : Json
  | bool : Bool → Json
  | num : Rat → Json
  | str : String → Json
  | arr : List Json → Json
  | obj : List (String × Json) → Json

/-- `WorkerMessage` from pkg/workers: the wire envelope
`{action : string, payload : interface, id : string}`. -/
structure WorkerMessage where
  action : String
  payload : Json
  id : String

/-- Last binding of `key` in a JSON object's field list (Go's duplicate-key
behaviour when building a map or filling a struct: later values overwrite). -/
def lookupLast (fields : List (String × Json)) (key : String) : Option Json :=
  fields.foldl (fun acc kv => if kv.1 = key then some kv.2 else acc) none

/-- encoding/json decoding of a `string`-typed struct field: absent or null
leaves the zero value, a JSON string is taken, anything else is a type error. -/
def decodeStringField (fields : List (String × Json)) (key : String) :
    Except String String :=
  match lookupLast fields key with
  | none => Except.ok ""
  | some Json.null => Except.ok ""
  | some (Json.str s) => Except.ok s
  | some _ => Except.error "json: cannot unmarshal value into field of type string"

/-- encoding/json decoding of an `interface`-typed struct field: absent means
the zero value (null), otherwise the JSON value itself. -/
def decodeAnyField (fields : List (String × Json)) (key : String) : Json :=
  match lookupLast fields key with
  | none => Json.null
  | some v => v

/-- `json.Unmarshal(msg.Body, &message)` for `WorkerMessage`
(processMessage, pkg/workers consumer): fails on non-JSON bytes (`none`) and
on a non-object top level; otherwise decodes the three tagged fields. -/
def unmarshalWorkerMessage (body : Option Json) : Except String WorkerMessage :=
  match body with
  | none => Except.error "invalid message body"
  | some (Json.obj fields) => do
      let action ← decodeStringField fields "action"
      let id ← decodeStringField fields "id"
      Except.ok { action := action, payload := decodeAnyField fields "payload", id := id }
  | some _ => Except.error "json: cannot unmarshal value into WorkerMessage"

/-- `json.Marshal` of a `WorkerMessage` (produceMessage): struct fields are
emitted in declaration order under their JSON tags. -/
def marshalWorkerMessage (m : WorkerMessage) : Json :=
  Json.obj [("action", Json.str m.action), ("payload", m.payload), ("id", Json.str m.id)]

/-- `User` from pkg/repositories: id (store-assigned), name, unique email,
timestamps (modelled as naturals). -/
structure User where
  id : Int
  name : String
  email : String
  createdAt : Nat
  updatedAt : Nat
  deriving DecidableEq

/-- The state of the users table: existing rows and the next BIGSERIAL key. -/
structure DbState where
  users : List User
  nextId : Int
  deriving DecidableEq

/-- Database errors surfaced by the insert: the unique-email constraint
violation of the users table. -/
inductive DbError where
  | uniqueViolation : DbError
  deriving DecidableEq

/-- Whether a row with this email already exists (the UNIQUE constraint on
users.email decides success of the insert). -/
def emailTaken (db : DbState) (email : String) : Bool :=
  db.users.any (fun u => u.email = email)

/-- `userRepository.CreateUser`: stamps CreatedAt/UpdatedAt on the caller's
record with `now`, then runs INSERT .. RETURNING. On success the caller's
record is fully overwritten by the returned row (id assigned by the store);
on a duplicate email the insert fails, the table is unchanged, and the
caller's record keeps the new timestamps (the stamping happened before the
query). Returns (result, caller's record after the call, new table state). -/
def CreateUser (now : Nat) (db : DbState) (user : User) :
    Except DbError User × User × DbState :=
  let stamped : User := { user with createdAt := now, updatedAt := now }
  if emailTaken db stamped.email then
    (Except.error DbError.uniqueViolation, stamped, db)
  else
    let inserted : User := { stamped with id := db.nextId }
    (Except.ok inserted, inserted,
      { users := db.users ++ [inserted], nextId := db.nextId + 1 })

/-- Errors produced by the consumer's message processing (Go `error` values;
branching only tests nil vs non-nil). -/
inductive ProcError where
  | unmarshalFailed (msg : String) : ProcError
  | invalidPayloadType : ProcError
  | nameNotFound : ProcError
  | emailNotFound : ProcError
  | createUserFailed (e : DbError) : ProcError
  deriving DecidableEq

/-- `ConsumerWorker.handleCreateUser`: the payload must be a JSON object
(Go map assertion), `name` and `email` must be strings in it; then
`CreateUser` is called and its error, if any, is wrapped and returned. -/
def handleCreateUser (now : Nat) (db : DbState) (payload : Json) :
    Except ProcError Unit × DbState :=
  match payload with
  | Json.obj userPayload =>
    match lookupLast userPayload "name" with
    | some (Json.str name) =>
      match lookupLast userPayload "email" with
      | some (Json.str email) =>
        let user : User := { id := 0, name := name, email := email,
                             createdAt := 0, updatedAt := 0 }
        match CreateUser now db user with
        | (Except.ok _, _, db2) => (Except.ok (), db2)
        | (Except.error e, _, db2) => (Except.error (ProcError.createUserFailed e), db2)
      | _ => (Except.error ProcError.emailNotFound, db)
    | _ => (Except.error ProcError.nameNotFound, db)
  | _ => (Except.error ProcError.invalidPayloadType, db)

/-- `ConsumerWorker.processMessage`: deserialize the body, then dispatch on
the action tag; `"create_user"` goes to the handler, any other action logs a
warning and returns nil (success). -/
def processMessage (now : Nat) (db : DbState) (body : Option Json) :
    Except ProcError Unit × DbState :=
  match unmarshalWorkerMessage body with
  | Except.error e => (Except.error (ProcError.unmarshalFailed e), db)
  | Except.ok message =>
    if message.action = "create_user" then
      handleCreateUser now db message.payload
    else
      (Except.ok (), db)

/-- A completion signal sent back to the broker for one delivery:
`msg.Ack(multiple)` or `msg.Nack(multiple, requeue)`. -/
inductive AckAction where
  | ack (multiple : Bool) : AckAction
  | nack (multiple : Bool) (requeue : Bool) : AckAction
  deriving DecidableEq

/-- One delivery branch of the consumer loop (`ConsumerWorker.Start`):
process the message, then `Nack(false, true)` on error else `Ack(false)`.
Returns the emitted completion signals and the new table state. -/
def consumeDelivery (now : Nat) (db : DbState) (body : Option Json) :
    List AckAction × DbState :=
  match processMessage now db body with
  | (Except.error _, db2) => ([AckAction.nack false true], db2)
  | (Except.ok _, db2) => ([AckAction.ack false], db2)

/-- An observable event at the consumer loop's suspension point: the
cancellation signal fires, the delivery channel closes, or a delivery
arrives (carrying its receipt time and body). -/
inductive ConsumerEvent where
  | cancelled : ConsumerEvent
  | channelClosed : ConsumerEvent
  | delivery (now : Nat) (body : Option Json) : ConsumerEvent

/-- How the consumer loop's goroutine ended (or that it is still waiting). -/
inductive ConsumerExit where
  | cancelled : ConsumerExit
  | channelClosed : ConsumerExit
  | subscribeFailed : ConsumerExit
  | pending : ConsumerExit
  deriving DecidableEq

/-- The consumer loop of `ConsumerWorker.Start`, run over a schedule of
events: cancellation or channel closure returns from the goroutine; a
delivery is processed and completed, then the loop continues. -/
def consumerLoop (db : DbState) : List ConsumerEvent → List AckAction × DbState × ConsumerExit
  | [] => ([], db, ConsumerExit.pending)
  | ConsumerEvent.cancelled :: _ => ([], db, ConsumerExit.cancelled)
  | ConsumerEvent.channelClosed :: _ => ([], db, ConsumerExit.channelClosed)
  | ConsumerEvent.delivery now body :: rest =>
    let step := consumeDelivery now db body
    let cont := consumerLoop step.2 rest
    (step.1 ++ cont.1, cont.2)

/-- `ConsumerWorker.Start`: returns nil to the caller unconditionally; the
spawned goroutine subscribes (on failure it logs and returns) and otherwise
runs the loop. -/
def consumerStart (subscribeOk : Bool) (db : DbState) (events : List ConsumerEvent) :
    Except String Unit × (List AckAction × DbState × ConsumerExit) :=
  if subscribeOk then (Except.ok (), consumerLoop db events)
  else (Except.ok (), ([], db, ConsumerExit.subscribeFailed))

/-- Number of deliveries the consumer loop consumes from a schedule before
it stops (cancellation or channel closure) or the schedule runs out. -/
def deliveriesProcessed : List ConsumerEvent → Nat
  | [] => 0
  | ConsumerEvent.cancelled :: _ => 0
  | ConsumerEvent.channelClosed :: _ => 0
  | ConsumerEvent.delivery _ _ :: rest => 1 + deliveriesProcessed rest

/-- The loop state machine phase of a worker (spec §4.2/§4.3). -/
inductive WorkerPhase where
  | idle : WorkerPhase
  | running : WorkerPhase
  | stopped : WorkerPhase
  deriving DecidableEq

/-- Lifecycle state of the consumer worker: its context-cancellation flag
(`cancel()` sets it; a second `cancel()` is a no-op). -/
structure ConsumerWorker where
  cancelled : Bool
  deriving DecidableEq

/-- `ConsumerWorker.Shutdown`: logs, cancels the context, returns nil. -/
def ConsumerWorker.Shutdown (w : ConsumerWorker) : Except String Unit × ConsumerWorker :=
  (Except.ok (), { w with cancelled := true })

/-- Phase of a started consumer worker: once cancellation is signalled the
loop observes it and the worker is Stopped. -/
def ConsumerWorker.phase (w : ConsumerWorker) : WorkerPhase :=
  if w.cancelled then WorkerPhase.stopped else WorkerPhase.running

/-- Lifecycle state of the producer worker: its context-cancellation flag. -/
structure ProducerWorker where
  cancelled : Bool
  deriving DecidableEq

/-- `ProducerWorker.Shutdown`: logs, cancels the context, returns nil. -/
def ProducerWorker.Shutdown (w : ProducerWorker) : Except String Unit × ProducerWorker :=
  (Except.ok (), { w with cancelled := true })

/-- Phase of a started producer worker: once cancellation is signalled the
loop observes it and the worker is Stopped. -/
def ProducerWorker.phase (w : ProducerWorker) : WorkerPhase :=
  if w.cancelled then WorkerPhase.stopped else WorkerPhase.running

/-- `UserPayload` from pkg/workers: the synthetic payload of produced
messages. -/
structure UserPayload where
  name : String
  email : String
  deriving DecidableEq

/-- `json.Marshal` image of a `UserPayload` value. -/
def UserPayload.toJson (p : UserPayload) : Json :=
  Json.obj [("name", Json.str p.name), ("email", Json.str p.email)]

/-- The message built by `ProducerWorker.produceMessage` at a tick whose
clock reads `unixSec` seconds / `unixNano` nanoseconds: a `create_user`
envelope with a synthetic name and email and a nanosecond-stamped id. -/
def produceMessage (unixSec unixNano : Int) : WorkerMessage :=
  { action := "create_user",
    payload := UserPayload.toJson
      { name := "User_" ++ toString unixSec,
        email := "user_" ++ toString unixSec ++ "@example.com" },
    id := "msg_" ++ toString unixNano }

/-- An observable event at the producer loop's suspension point: the
cancellation signal fires, or the ticker fires (carrying the clock readings
and whether the broker accepts the publish). -/
inductive ProducerEvent where
  | cancelled : ProducerEvent
  | tick (unixSec unixNano : Int) (publishOk : Bool) : ProducerEvent
  deriving DecidableEq

/-- How the producer loop's goroutine ended (or that it is still waiting). -/
inductive ProducerExit where
  | cancelled : ProducerExit
  | pending : ProducerExit
  deriving DecidableEq

/-- The producer loop of `ProducerWorker.Start`, run over a schedule of
events: cancellation returns from the goroutine; each tick builds, serializes
and publishes a fresh message (a publish failure is only logged) and the loop
continues. Returns the serialized bodies handed to `PublishMessage`, in
order, and how the loop ended. -/
def producerLoop : List ProducerEvent → List Json × ProducerExit
  | [] => ([], ProducerExit.pending)
  | ProducerEvent.cancelled :: _ => ([], ProducerExit.cancelled)
  | ProducerEvent.tick s n _ :: rest =>
    let cont := producerLoop rest
    (marshalWorkerMessage (produceMessage s n) :: cont.1, cont.2)

/-! ## Helper lemmas -/

/-- The delivery branch of the consumer loop emits either a single
acknowledgement or a single reject-with-requeue. -/
theorem consumeDelivery_shape (now : Nat) (db : DbState) (body : Option Json) :
    (consumeDelivery now db body).1 = [AckAction.ack false] ∨
    (consumeDelivery now db body).1 = [AckAction.nack false true] := by
  rcases hp : processMessage now db body with ⟨r | r, db2⟩ <;>
    simp [consumeDelivery, hp]

/-- Running the consumer loop on a schedule that reaches channel closure
after delivery-only events: the loop returns at the closure, keeping the
completion signals and store effects of the preceding deliveries only. -/
theorem consumerLoop_append_closed (pre rest : List ConsumerEvent) (db : DbState)
    (hpre : ∀ e ∈ pre, ∃ now body, e = ConsumerEvent.delivery now body) :
    consumerLoop db (pre ++ ConsumerEvent.channelClosed :: rest) =
      ((consumerLoop db pre).1, (consumerLoop db pre).2.1, ConsumerExit.channelClosed) := by
  induction pre generalizing db with
  | nil => simp [consumerLoop]
  | cons e p ih =>
    obtain ⟨now, body, rfl⟩ := hpre e (by simp)
    have ih2 := ih (consumeDelivery now db body).2
      (fun x hx => hpre x (by simp [hx]))
    simp [consumerLoop, ih2]

/-! ## Claims -/

/-- C3: for every delivery received by the consumer loop, exactly one of
acknowledge or reject is issued — the loop emits exactly one completion
signal per consumed delivery, and every emitted signal is either
`Ack(false)` or `Nack(false, true)`, never both for one delivery. -/
theorem consumer_ack_discipline (db : DbState) (evs : List ConsumerEvent) :
    (consumerLoop db evs).1.length = deliveriesProcessed evs ∧
    ∀ a ∈ (consumerLoop db evs).1,
      a = AckAction.ack false ∨ a = AckAction.nack false true := by
  induction evs generalizing db with
  | nil => simp [consumerLoop, deliveriesProcessed]
  | cons e rest ih =>
    cases e with
    | cancelled => simp [consumerLoop, deliveriesProcessed]
    | channelClosed => simp [consumerLoop, deliveriesProcessed]
    | delivery now body =>
      obtain ⟨ih1, ih2⟩ := ih (consumeDelivery now db body).2
      have hlen : (consumeDelivery now db body).1.length = 1 := by
        rcases consumeDelivery_shape now db body with h | h <;> simp [h]
      constructor
      · simp only [consumerLoop, deliveriesProcessed, List.length_append, hlen, ih1]
      · intro a ha
        simp only [consumerLoop, List.mem_append] at ha
        rcases ha with ha | ha
        · rcases consumeDelivery_shape now db body with h | h <;>
            rw [h] at ha <;> rw [List.mem_singleton] at ha <;> simp [ha]
        · exact ih2 a ha

/-- C4: a delivery whose body fails to deserialize as a `WorkerMessage` is
completed with exactly one `Nack(false, requeue := true)` and the users
table is unchanged (zero store writes). -/
theorem consume_unmarshal_error (now : Nat) (db : DbState) (body : Option Json)
    (e : String) (hun : unmarshalWorkerMessage body = Except.error e) :
    consumeDelivery now db body = ([AckAction.nack false true], db) := by
  simp [consumeDelivery, processMessage, hun]

/-- Witness for C4: a body made of non-JSON bytes is rejected with requeue
and writes nothing. -/
theorem consume_unmarshal_error_witness :
    unmarshalWorkerMessage (none : Option Json) = Except.error "invalid message body" ∧
    consumeDelivery 0 ⟨[], 1⟩ none = ([AckAction.nack false true], ⟨[], 1⟩) :=
  ⟨rfl, consume_unmarshal_error 0 ⟨[], 1⟩ none "invalid message body" rfl⟩

/-- C5: a delivery whose envelope carries an action other than
`"create_user"` is completed with exactly one `Ack(false)` and the users
table is unchanged (zero store writes). -/
theorem consume_unknown_action (now : Nat) (db : DbState) (body : Option Json)
    (msg : WorkerMessage) (hun : unmarshalWorkerMessage body = Except.ok msg)
    (hact : msg.action ≠ "create_user") :
    consumeDelivery now db body = ([AckAction.ack false], db) := by
  simp [consumeDelivery, processMessage, hun, hact]

/-- Witness for C5: a `"delete_user"` envelope is acknowledged and writes
nothing. -/
theorem consume_unknown_action_witness :
    unmarshalWorkerMessage (some (Json.obj [("action", Json.str "delete_user")])) =
      Except.ok { action := "delete_user", payload := Json.null, id := "" } ∧
    ({ action := "delete_user", payload := Json.null, id := "" } : WorkerMessage).action ≠
      "create_user" ∧
    consumeDelivery 0 ⟨[], 1⟩ (some (Json.obj [("action", Json.str "delete_user")])) =
      ([AckAction.ack false], ⟨[], 1⟩) :=
  ⟨rfl, by decide,
   consume_unknown_action 0 ⟨[], 1⟩ _ _ rfl (by decide)⟩

/-- C6: serializing an envelope whose action and id are strings and whose
payload is a JSON object and deserializing the result gives back the
original envelope. -/
theorem marshal_unmarshal_roundTrip (action id : String) (fields : List (String × Json)) :
    unmarshalWorkerMessage (some (marshalWorkerMessage
        { action := action, payload := Json.obj fields, id := id })) =
      Except.ok { action := action, payload := Json.obj fields, id := id } := rfl

/-- C7: each producer tick builds a fresh envelope (id stamped from the
tick's nanosecond clock), serializes it and hands it to publish, and the
rest of the loop is the same whether the publish succeeds or fails. -/
theorem producer_tick_publishes (s n : Int) (ok : Bool) (rest : List ProducerEvent) :
    producerLoop (ProducerEvent.tick s n ok :: rest) =
      (marshalWorkerMessage (produceMessage s n) :: (producerLoop rest).1,
       (producerLoop rest).2) ∧
    (produceMessage s n).id = "msg_" ++ toString n ∧
    producerLoop (ProducerEvent.tick s n true :: rest) =
      producerLoop (ProducerEvent.tick s n false :: rest) :=
  ⟨rfl, rfl, rfl⟩

/-- C8: `Shutdown` is idempotent on both workers: a second call returns no
error and leaves the worker in the same end state as the first, which is
the `stopped` phase. -/
theorem shutdown_idempotent (wc : ConsumerWorker) (wp : ProducerWorker) :
    (ConsumerWorker.Shutdown (ConsumerWorker.Shutdown wc).2 =
        (Except.ok (), (ConsumerWorker.Shutdown wc).2) ∧
      ConsumerWorker.phase (ConsumerWorker.Shutdown wc).2 = WorkerPhase.stopped) ∧
    (ProducerWorker.Shutdown (ProducerWorker.Shutdown wp).2 =
        (Except.ok (), (ProducerWorker.Shutdown wp).2) ∧
      ProducerWorker.phase (ProducerWorker.Shutdown wp).2 = WorkerPhase.stopped) :=
  ⟨⟨rfl, rfl⟩, ⟨rfl, rfl⟩⟩

/-- C1: a delivery whose body deserializes to a `"create_user"` envelope
with string `name` and `email` in its payload, when the insert succeeds
(email not yet taken), appends exactly one row with that name and email and
the store-assigned identifier, and is completed with exactly one
`Ack(false)` and no reject. -/
theorem consume_create_user_success
    (now : Nat) (db : DbState) (body : Option Json)
    (msg : WorkerMessage) (fields : List (String × Json)) (name email : String)
    (hun : unmarshalWorkerMessage body = Except.ok msg)
    (hact : msg.action = "create_user")
    (hpay : msg.payload = Json.obj fields)
    (hname : lookupLast fields "name" = some (Json.str name))
    (hemail : lookupLast fields "email" = some (Json.str email))
    (hfree : emailTaken db email = false)
    (hpos : 0 < db.nextId) :
    consumeDelivery now db body =
      ([AckAction.ack false],
       { users := db.users ++
           [{ id := db.nextId, name := name, email := email,
              createdAt := now, updatedAt := now }],
         nextId := db.nextId + 1 }) ∧
    db.nextId ≠ 0 := by
  constructor
  · simp [consumeDelivery, processMessage, hun, hact, hpay, handleCreateUser,
          hname, hemail, CreateUser, hfree]
  · omega

/-- Witness for C1: Ada's envelope against an empty table creates the row
`(1, Ada, ada@example.com)` and is acknowledged. -/
theorem consume_create_user_success_witness :
    unmarshalWorkerMessage (some (Json.obj
        [("action", Json.str "create_user"),
         ("payload", Json.obj [("name", Json.str "Ada"),
                               ("email", Json.str "ada@example.com")]),
         ("id", Json.str "msg_1")])) =
      Except.ok { action := "create_user",
                  payload := Json.obj [("name", Json.str "Ada"),
                                       ("email", Json.str "ada@example.com")],
                  id := "msg_1" } ∧
    lookupLast [("name", Json.str "Ada"), ("email", Json.str "ada@example.com")]
        "name" = some (Json.str "Ada") ∧
    lookupLast [("name", Json.str "Ada"), ("email", Json.str "ada@example.com")]
        "email" = some (Json.str "ada@example.com") ∧
    emailTaken ⟨[], 1⟩ "ada@example.com" = false ∧
    (consumeDelivery 7 ⟨[], 1⟩ (some (Json.obj
        [("action", Json.str "create_user"),
         ("payload", Json.obj [("name", Json.str "Ada"),
                               ("email", Json.str "ada@example.com")]),
         ("id", Json.str "msg_1")])) =
      ([AckAction.ack false],
       { users := [{ id := 1, name := "Ada", email := "ada@example.com",
                     createdAt := 7, updatedAt := 7 }],
         nextId := 2 }) ∧
     (1 : Int) ≠ 0) :=
  ⟨rfl, rfl, rfl, rfl,
   consume_create_user_success 7 ⟨[], 1⟩ _ _ _ "Ada" "ada@example.com"
     rfl rfl rfl rfl rfl rfl (by decide)⟩

/-- C2 counterexample: a `"create_user"` delivery whose email already
exists in the table — the store create fails with the unique-email
constraint violation — is NOT acknowledged: it is completed with
`Nack(false, requeue := true)`, which differs from an acknowledgement. -/
theorem duplicate_email_not_acked_cex :
    (consumeDelivery 9
        ⟨[{ id := 1, name := "Ada", email := "ada@example.com",
            createdAt := 0, updatedAt := 0 }], 2⟩
        (some (Json.obj
          [("action", Json.str "create_user"),
           ("payload", Json.obj [("name", Json.str "Ada"),
                                 ("email", Json.str "ada@example.com")]),
           ("id", Json.str "msg_2")]))).1 = [AckAction.nack false true] ∧
    [AckAction.nack false true] ≠ [AckAction.ack false] :=
  ⟨rfl, by decide⟩

/-- C2 (amended): when the `"create_user"` handler's store create fails
with the duplicate-email constraint violation, the handler propagates the
error and the delivery is rejected with requeue, not acknowledged; the
table is unchanged. -/
theorem duplicate_email_nacked
    (now : Nat) (db : DbState) (body : Option Json)
    (msg : WorkerMessage) (fields : List (String × Json)) (name email : String)
    (hun : unmarshalWorkerMessage body = Except.ok msg)
    (hact : msg.action = "create_user")
    (hpay : msg.payload = Json.obj fields)
    (hname : lookupLast fields "name" = some (Json.str name))
    (hemail : lookupLast fields "email" = some (Json.str email))
    (hdup : emailTaken db email = true) :
    consumeDelivery now db body = ([AckAction.nack false true], db) := by
  simp [consumeDelivery, processMessage, hun, hact, hpay, handleCreateUser,
        hname, hemail, CreateUser, hdup]

/-- Witness for the amended C2: redelivering Ada's envelope against a table
already holding her email is rejected with requeue and changes nothing. -/
theorem duplicate_email_nacked_witness :
    emailTaken ⟨[{ id := 1, name := "Ada", email := "ada@example.com",
                   createdAt := 0, updatedAt := 0 }], 2⟩ "ada@example.com" = true ∧
    consumeDelivery 9
        ⟨[{ id := 1, name := "Ada", email := "ada@example.com",
            createdAt := 0, updatedAt := 0 }], 2⟩
        (some (Json.obj
          [("action", Json.str "create_user"),
           ("payload", Json.obj [("name", Json.str "Ada"),
                                 ("email", Json.str "ada@example.com")]),
           ("id", Json.str "msg_2")])) =
      ([AckAction.nack false true],
       ⟨[{ id := 1, name := "Ada", email := "ada@example.com",
           createdAt := 0, updatedAt := 0 }], 2⟩) :=
  ⟨rfl,
   duplicate_email_nacked 9 _ _ _ _ "Ada" "ada@example.com"
     rfl rfl rfl rfl rfl rfl⟩

/-- C9: `CreateUser` stamps CreatedAt and UpdatedAt (equal to each other)
on its input record before the insert, so when the insert fails and an
error is returned, the caller's record carries the new timestamps — it is
not left unchanged on error. -/
theorem createUser_stamps_on_failure
    (now : Nat) (db : DbState) (user : User)
    (hdup : emailTaken db user.email = true) :
    CreateUser now db user =
      (Except.error DbError.uniqueViolation,
       { user with createdAt := now, updatedAt := now }, db) ∧
    ({ user with createdAt := now, updatedAt := now } : User).createdAt =
      ({ user with createdAt := now, updatedAt := now } : User).updatedAt ∧
    (user.createdAt ≠ now →
      ({ user with createdAt := now, updatedAt := now } : User) ≠ user) := by
  refine ⟨?_, rfl, ?_⟩
  · simp [CreateUser, hdup]
  · intro hne heq
    exact hne ((congrArg User.createdAt heq).symm)

/-- Witness for C9: a failing insert of Bob's record over an existing row
with his email leaves Bob's record restamped, not unchanged. -/
theorem createUser_stamps_on_failure_witness :
    emailTaken ⟨[{ id := 1, name := "Ada", email := "bob@example.com",
                   createdAt := 0, updatedAt := 0 }], 2⟩
        ({ id := 5, name := "Bob", email := "bob@example.com",
           createdAt := 3, updatedAt := 4 } : User).email = true ∧
    (CreateUser 9
        ⟨[{ id := 1, name := "Ada", email := "bob@example.com",
            createdAt := 0, updatedAt := 0 }], 2⟩
        { id := 5, name := "Bob", email := "bob@example.com",
          createdAt := 3, updatedAt := 4 } =
      (Except.error DbError.uniqueViolation,
       { id := 5, name := "Bob", email := "bob@example.com",
         createdAt := 9, updatedAt := 9 },
       ⟨[{ id := 1, name := "Ada", email := "bob@example.com",
           createdAt := 0, updatedAt := 0 }], 2⟩) ∧
     ({ id := 5, name := "Bob", email := "bob@example.com",
        createdAt := 9, updatedAt := 9 } : User).createdAt =
       ({ id := 5, name := "Bob", email := "bob@example.com",
          createdAt := 9, updatedAt := 9 } : User).updatedAt ∧
     (({ id := 5, name := "Bob", email := "bob@example.com",
         createdAt := 3, updatedAt := 4 } : User).createdAt ≠ 9 →
       ({ id := 5, name := "Bob", email := "bob@example.com",
          createdAt := 9, updatedAt := 9 } : User) ≠
         { id := 5, name := "Bob", email := "bob@example.com",
           createdAt := 3, updatedAt := 4 })) :=
  ⟨rfl, createUser_stamps_on_failure 9 _ _ rfl⟩

/-- C10: if the delivery channel closes while only deliveries (and never a
cancellation) came before, the consumer loop returns at the closure: the
caller of `Start` saw no error, no completion signal is issued for the
closure, no later event is consumed (no resubscription), and the goroutine
ends with the channel-closed exit even though Shutdown was never
signalled. -/
theorem channel_close_stops_consumer
    (db : DbState) (pre rest : List ConsumerEvent)
    (hpre : ∀ e ∈ pre, ∃ now body, e = ConsumerEvent.delivery now body) :
    consumerStart true db (pre ++ ConsumerEvent.channelClosed :: rest) =
      (Except.ok (),
       ((consumerLoop db pre).1, (consumerLoop db pre).2.1,
        ConsumerExit.channelClosed)) := by
  simp [consumerStart, consumerLoop_append_closed pre rest db hpre]

/-- Witness for C10: one delivery, then closure, then one more pending
delivery — the loop stops at the closure and never touches the rest. -/
theorem channel_close_stops_consumer_witness :
    (∀ e ∈ [ConsumerEvent.delivery 0 none],
      ∃ now body, e = ConsumerEvent.delivery now body) ∧
    consumerStart true ⟨[], 1⟩
        ([ConsumerEvent.delivery 0 none] ++
          ConsumerEvent.channelClosed :: [ConsumerEvent.delivery 1 none]) =
      (Except.ok (),
       ((consumerLoop ⟨[], 1⟩ [ConsumerEvent.delivery 0 none]).1,
        (consumerLoop ⟨[], 1⟩ [ConsumerEvent.delivery 0 none]).2.1,
        ConsumerExit.channelClosed)) := by
  have hpre : ∀ e ∈ [ConsumerEvent.delivery 0 none],
      ∃ now body, e = ConsumerEvent.delivery now body := by
    intro e he
    rw [List.mem_singleton] at he
    exact ⟨0, none, he⟩
  exact ⟨hpre, channel_close_stops_consumer ⟨[], 1⟩ _ _ hpre⟩

end Worker
